import Mathlib

/-!
Verification of the CrystalShards Python API client example
(`docs/api/examples/python_client.py`) against its specification.

The client is shallowly embedded: JSON values are an inductive type with an
executable encoder and decoder (modelling `json.dumps` / `json.loads` on the
fragment the client exchanges), the HTTP transport is a function from requests
to transport results, and each client method is a Lean function threading the
(immutable) client state explicitly and returning the list of network requests
it issued together with its result.  Raised Python exceptions are modelled by
their message strings, since the code raises bare `Exception(msg)` values and
`get_shard` inspects only `str(e)`.
-/

/-- Left and right curly brace characters, used when building JSON text. -/
def lbrace : Char := Char.ofNat 123

def rbrace : Char := Char.ofNat 125

/-- JSON values as exchanged by the client: `json.loads` results restricted to
the fragment the service uses (numbers are integers; floats never occur in the
bodies the client manipulates). -/
inductive Json where
  | null : Json
  | bool (b : Bool) : Json
  | num (n : Int) : Json
  | str (s : String) : Json
  | arr (elems : List Json) : Json
  | obj (fields : List (String × Json)) : Json

/-- Escape one character for inclusion in a JSON string literal
(as `json.dumps` does for the characters our fixtures use). -/
def escChar (c : Char) : String :=
  if c = '"' then "\\\""
  else if c = '\\' then "\\\\"
  else if c = '\n' then "\\n"
  else if c = '\t' then "\\t"
  else if c = '\r' then "\\r"
  else String.singleton c

def escString (s : String) : String :=
  s.data.foldl (fun acc c => acc ++ escChar c) ""

mutual

/-- Serialize a JSON value to text (the shape `json.dumps` produces with
separators `", "` and `": "` replaced by the compact `","`/`":"`; the decoder
below accepts both). -/
def Json.encode : Json → String
  | .null => "null"
  | .bool true => "true"
  | .bool false => "false"
  | .num n => toString n
  | .str s => "\"" ++ escString s ++ "\""
  | .arr elems => "[" ++ Json.encodeElems elems ++ "]"
  | .obj fields =>
      String.singleton lbrace ++ Json.encodeFields fields ++ String.singleton rbrace

def Json.encodeElems : List Json → String
  | [] => ""
  | [x] => x.encode
  | x :: xs => x.encode ++ "," ++ Json.encodeElems xs

def Json.encodeFields : List (String × Json) → String
  | [] => ""
  | [(k, v)] => "\"" ++ escString k ++ "\":" ++ v.encode
  | (k, v) :: xs => "\"" ++ escString k ++ "\":" ++ v.encode ++ "," ++ Json.encodeFields xs

end

/-- JSON insignificant whitespace. -/
def isJsonWs (c : Char) : Bool :=
  c = ' ' || c = '\n' || c = '\t' || c = '\r'

def skipWs (cs : List Char) : List Char :=
  cs.dropWhile isJsonWs

/-- Parse the body of a JSON string literal after the opening quote, undoing
the escapes `escChar` produces (plus `\/`, `\b`, `\f` which `json.loads`
accepts). Returns the string and the remaining input after the closing quote. -/
def parseStringBody : Nat → List Char → Option (String × List Char)
  | 0, _ => none
  | _, [] => none
  | fuel + 1, c :: rest =>
    if c = '"' then some ("", rest)
    else if c = '\\' then
      match rest with
      | [] => none
      | e :: rest' =>
        let esc : Option Char :=
          if e = '"' then some '"'
          else if e = '\\' then some '\\'
          else if e = '/' then some '/'
          else if e = 'n' then some '\n'
          else if e = 't' then some '\t'
          else if e = 'r' then some '\r'
          else if e = 'b' then some (Char.ofNat 8)
          else if e = 'f' then some (Char.ofNat 12)
          else none
        match esc with
        | none => none
        | some ch =>
          match parseStringBody fuel rest' with
          | some (s, rem) => some (String.singleton ch ++ s, rem)
          | none => none
    else
      match parseStringBody fuel rest with
      | some (s, rem) => some (String.singleton c ++ s, rem)
      | none => none

def digitVal (c : Char) : Nat := c.toNat - '0'.toNat

/-- Parse a (possibly signed) decimal integer literal. -/
def parseIntLit (cs : List Char) : Option (Int × List Char) :=
  let (neg, cs') : Bool × List Char :=
    match cs with
    | '-' :: rest => (true, rest)
    | _ => (false, cs)
  let digits := cs'.takeWhile Char.isDigit
  let rest := cs'.dropWhile Char.isDigit
  if digits.isEmpty then none
  else
    let n : Nat := digits.foldl (fun acc c => acc * 10 + digitVal c) 0
    some (if neg then -(n : Int) else (n : Int), rest)

mutual

/-- Fuel-indexed JSON parser: one value, returning the remaining input.
Models `json.loads` on the fragment in `Json` (objects, arrays, strings,
integers, booleans, null). -/
def parseVal : Nat → List Char → Option (Json × List Char)
  | 0, _ => none
  | fuel + 1, cs =>
    match skipWs cs with
    | [] => none
    | c :: rest =>
      if c = 'n' then
        match rest with
        | 'u' :: 'l' :: 'l' :: rem => some (Json.null, rem)
        | _ => none
      else if c = 't' then
        match rest with
        | 'r' :: 'u' :: 'e' :: rem => some (Json.bool true, rem)
        | _ => none
      else if c = 'f' then
        match rest with
        | 'a' :: 'l' :: 's' :: 'e' :: rem => some (Json.bool false, rem)
        | _ => none
      else if c = '"' then
        match parseStringBody fuel rest with
        | some (s, rem) => some (Json.str s, rem)
        | none => none
      else if c = '[' then
        match skipWs rest with
        | ']' :: rem => some (Json.arr [], rem)
        | _ =>
          match parseElems fuel rest with
          | some (xs, rem) => some (Json.arr xs, rem)
          | none => none
      else if c = lbrace then
        match skipWs rest with
        | c' :: rem =>
          if c' = rbrace then some (Json.obj [], rem)
          else
            match parseFields fuel (c' :: rem) with
            | some (fs, rem') => some (Json.obj fs, rem')
            | none => none
        | [] => none
      else
        match parseIntLit (c :: rest) with
        | some (n, rem) => some (Json.num n, rem)
        | none => none

/-- Parse a nonempty comma-separated list of values followed by `]`. -/
def parseElems : Nat → List Char → Option (List Json × List Char)
  | 0, _ => none
  | fuel + 1, cs =>
    match parseVal fuel cs with
    | none => none
    | some (x, rest) =>
      match skipWs rest with
      | ',' :: rest' =>
        match parseElems fuel rest' with
        | some (xs, rem) => some (x :: xs, rem)
        | none => none
      | ']' :: rem => some ([x], rem)
      | _ => none

/-- Parse a nonempty comma-separated list of `"key": value` members followed
by a closing brace. -/
def parseFields : Nat → List Char → Option (List (String × Json) × List Char)
  | 0, _ => none
  | fuel + 1, cs =>
    match skipWs cs with
    | '"' :: rest =>
      match parseStringBody fuel rest with
      | none => none
      | some (k, rest') =>
        match skipWs rest' with
        | ':' :: rest'' =>
          match parseVal fuel rest'' with
          | none => none
          | some (v, rem) =>
            match skipWs rem with
            | ',' :: rem' =>
              match parseFields fuel rem' with
              | some (fs, rem'') => some ((k, v) :: fs, rem'')
              | none => none
            | c :: rem' =>
              if c = rbrace then some ([(k, v)], rem') else none
            | [] => none
        | _ => none
    | _ => none

end

/-- `json.loads` on a whole document: parse one value and require only
whitespace to remain.  `none` models a raised `JSONDecodeError`. -/
def Json.decode (s : String) : Option Json :=
  match parseVal (s.length + 1) s.data with
  | some (j, rest) => if (skipWs rest).isEmpty then some j else none
  | none => none

/-- Python `str.__contains__`: `needle in hay` (substring test), as used by
`get_shard` on the exception message. -/
def pyIn (needle hay : String) : Bool :=
  (List.range (hay.data.length + 1)).any (fun i => needle.data.isPrefixOf (hay.data.drop i))

/-- Python truthiness of a decoded JSON value (`None`, `False`, `0`, `""`,
`[]`, `{}` are falsy), as used by the `or` chains in `_request`. -/
def jsonTruthy : Json → Bool
  | .null => false
  | .bool b => b
  | .num n => n != 0
  | .str s => s != ""
  | .arr xs => !xs.isEmpty
  | .obj fs => !fs.isEmpty

/-- Python `dict.get`: `json.loads` keeps the last occurrence of a duplicated
key, so lookup returns the last binding. -/
def dictGet (fs : List (String × Json)) (k : String) : Option Json :=
  fs.foldl (fun acc p => if p.1 = k then some p.2 else acc) none

mutual

/-- Python `repr` of a decoded JSON value (string escaping inside `repr` is
not reproduced; the bodies exchanged here contain none). -/
def pyRepr : Json → String
  | .null => "None"
  | .bool true => "True"
  | .bool false => "False"
  | .num n => toString n
  | .str s => "'" ++ s ++ "'"
  | .arr xs => "[" ++ pyReprElems xs ++ "]"
  | .obj fs => String.singleton lbrace ++ pyReprFields fs ++ String.singleton rbrace

def pyReprElems : List Json → String
  | [] => ""
  | [x] => pyRepr x
  | x :: xs => pyRepr x ++ ", " ++ pyReprElems xs

def pyReprFields : List (String × Json) → String
  | [] => ""
  | [(k, v)] => "'" ++ k ++ "': " ++ pyRepr v
  | (k, v) :: xs => "'" ++ k ++ "': " ++ pyRepr v ++ ", " ++ pyReprFields xs

end

/-- Python `str` of a decoded JSON value, as applied by the f-string
`f"API Error ...: \x7berror_msg\x7d"`. -/
def pyStr : Json → String
  | .str s => s
  | j => pyRepr j

/-- `error_data.get(k)` restricted to truthy results: the value participates in
the `or` chain only when truthy. -/
def truthyGet (fs : List (String × Json)) (k : String) : Option Json :=
  match dictGet fs k with
  | some v => if jsonTruthy v then some v else none
  | none => none

/-- `error_data.get('error') or error_data.get('message') or str(e)` for a
decoded object body. -/
def resolveErrMsg (fs : List (String × Json)) (fallback : String) : String :=
  match truthyGet fs "error" with
  | some v => pyStr v
  | none =>
    match truthyGet fs "message" with
    | some v => pyStr v
    | none => fallback

/-- `str(e)` for the `requests.HTTPError` raised by `raise_for_status`
(only applied to statuses in 400..599). -/
def httpErrorStr (status : Nat) (reason url : String) : String :=
  if status < 500 then
    toString status ++ " Client Error: " ++ reason ++ " for url: " ++ url
  else
    toString status ++ " Server Error: " ++ reason ++ " for url: " ++ url

def pyTypeName : Json → String
  | .null => "NoneType"
  | .bool _ => "bool"
  | .num _ => "int"
  | .str _ => "str"
  | .arr _ => "list"
  | .obj _ => "dict"

/-- Message of the `AttributeError` raised by `error_data.get` when the
decoded failure body is not a JSON object. -/
def attrErrorMsg (j : Json) : String :=
  "'" ++ pyTypeName j ++ "' object has no attribute 'get'"

/-- Representative message of the `JSONDecodeError` raised by
`response.json()` on a non-JSON success body (the json library's exact
position-dependent text is out of scope; no property depends on it). -/
def jsonDecodeErrorMsg (body : String) : String :=
  "Expecting value in " ++ body

/-- A scalar query-string parameter value as passed to `urlencode`. -/
inductive PValue where
  | str (s : String)
  | int (n : Int)
  | bool (b : Bool)

/-- Python `str` of a parameter value, applied by `urlencode`. -/
def PValue.pyStr : PValue → String
  | .str s => s
  | .int n => toString n
  | .bool true => "True"
  | .bool false => "False"

def utf8Bytes (c : Char) : List Nat :=
  let n := c.toNat
  if n < 128 then [n]
  else if n < 2048 then [192 + n / 64, 128 + n % 64]
  else if n < 65536 then [224 + n / 4096, 128 + (n / 64) % 64, 128 + n % 64]
  else [240 + n / 262144, 128 + (n / 4096) % 64, 128 + (n / 64) % 64, 128 + n % 64]

def hexDigit (n : Nat) : Char :=
  if n < 10 then Char.ofNat ('0'.toNat + n) else Char.ofNat ('A'.toNat + n - 10)

/-- Characters `urllib.parse.quote_plus` never encodes (ASCII alphanumerics
and `_.-~`). -/
def quoteSafe (c : Char) : Bool :=
  c.isAlphanum || c = '_' || c = '.' || c = '-' || c = '~'

def quotePlusChar (c : Char) : String :=
  if quoteSafe c then String.singleton c
  else if c = ' ' then "+"
  else String.join ((utf8Bytes c).map
    (fun b => "%" ++ String.singleton (hexDigit (b / 16)) ++ String.singleton (hexDigit (b % 16))))

/-- `urllib.parse.quote_plus` with empty `safe`, as `urlencode` applies it. -/
def quote_plus (s : String) : String :=
  s.data.foldl (fun acc c => acc ++ quotePlusChar c) ""

/-- `urllib.parse.urlencode` over an insertion-ordered mapping. -/
def urlencode (params : List (String × PValue)) : String :=
  String.intercalate "&" (params.map (fun p => quote_plus p.1 ++ "=" ++ quote_plus p.2.pyStr))

/-- Python `dict.__setitem__`: overwrite in place, else append. -/
def dictUpd (d : List (String × α)) (k : String) (v : α) : List (String × α) :=
  if d.any (fun p => p.1 = k) then d.map (fun p => if p.1 = k then (k, v) else p)
  else d ++ [(k, v)]

/-- Python `dict.update` with an insertion-ordered mapping. -/
def dictUpdMany (d : List (String × α)) (kvs : List (String × α)) : List (String × α) :=
  kvs.foldl (fun acc p => dictUpd acc p.1 p.2) d

/-- Python truthiness of `self.api_key : Optional[str]` (`None` and `""` are
falsy). -/
def pyTruthyStr : Option String → Bool
  | none => false
  | some s => s != ""

/-- Python `str.rstrip('/')`. -/
def rstripSlash (s : String) : String :=
  String.mk ((s.data.reverse.dropWhile (fun c => c = '/')).reverse)

/-- An HTTP response as observed through the transport: status code, reason
phrase, and raw body text. -/
structure HttpResponse where
  status : Nat
  reason : String
  body : String

/-- Result of one transport round trip: either a response, or a
`requests.exceptions.RequestException` (DNS failure, connection refused,
timeout, ...) identified by its message. -/
inductive TransportResult where
  | resp (r : HttpResponse) : TransportResult
  | exn (msg : String) : TransportResult

/-- One request handed to `self.session.request`. -/
structure HttpRequest where
  method : String
  url : String
  jsonBody : Option Json

/-- The externally supplied HTTP transport. -/
def Transport : Type := HttpRequest → TransportResult

/-- Result of one client method call: the value returned or the message of
the exception raised, together with the network requests issued during the
call (in order). -/
structure Outcome (α : Type) where
  result : Except String α
  requests : List HttpRequest

/-- `CrystalShardsClient` state: `self.base_url`, `self.api_key`, and
`self.session` represented by its header mapping (the requests library's own
default headers are transport internals and are not modelled). -/
structure CrystalShardsClient where
  base_url : String
  api_key : Option String
  headers : List (String × String)

/-- `CrystalShardsClient.__init__`: strip trailing slashes from the base URL,
store the key, set the default headers, and add `Authorization` when a key is
configured (Python truthiness: a non-`None`, non-empty string). -/
def CrystalShardsClient.init (base_url : String) (api_key : Option String) : CrystalShardsClient :=
  let hdrs := dictUpdMany []
    [("Content-Type", "application/json"),
     ("User-Agent", "CrystalShardsClient/1.0.0 (Python)")]
  let hdrs :=
    if pyTruthyStr api_key then
      dictUpd hdrs "Authorization" ("Bearer " ++ api_key.getD "")
    else hdrs
  { base_url := rstripSlash base_url, api_key := api_key, headers := hdrs }

/-- Python default for `__init__`'s `base_url` parameter. -/
def defaultBaseUrl : String := "https://api.crystalshards.org"

/-- `CrystalShardsClient._request`: issue the call against
`base_url + endpoint`; on a 2xx body return the decoded JSON; on an HTTP
error status (400..599, `raise_for_status`) re-decode the body and raise
`API Error <status>: <resolved message>` — unless the body decodes to a
non-object JSON value, in which case `error_data.get` itself raises an
`AttributeError`; on a transport failure raise `Request failed: <msg>`.
Returns the (unchanged) client state alongside the outcome. -/
def CrystalShardsClient._request (c : CrystalShardsClient) (t : Transport)
    (method endpoint : String) (jsonBody : Option Json) :
    CrystalShardsClient × Outcome Json :=
  match t ⟨method, c.base_url ++ endpoint, jsonBody⟩ with
  | .exn msg =>
    (c, ⟨.error ("Request failed: " ++ msg), [⟨method, c.base_url ++ endpoint, jsonBody⟩]⟩)
  | .resp r =>
    if 400 ≤ r.status ∧ r.status < 600 then
      match Json.decode r.body with
      | some (Json.obj fields) =>
        (c, ⟨.error ("API Error " ++ toString r.status ++ ": " ++
                resolveErrMsg fields (httpErrorStr r.status r.reason (c.base_url ++ endpoint))),
             [⟨method, c.base_url ++ endpoint, jsonBody⟩]⟩)
      | some other =>
        (c, ⟨.error (attrErrorMsg other), [⟨method, c.base_url ++ endpoint, jsonBody⟩]⟩)
      | none =>
        (c, ⟨.error ("API Error " ++ toString r.status ++ ": " ++
                httpErrorStr r.status r.reason (c.base_url ++ endpoint)),
             [⟨method, c.base_url ++ endpoint, jsonBody⟩]⟩)
    else
      match Json.decode r.body with
      | some j => (c, ⟨.ok j, [⟨method, c.base_url ++ endpoint, jsonBody⟩]⟩)
      | none =>
        (c, ⟨.error ("Request failed: " ++ jsonDecodeErrorMsg r.body),
             [⟨method, c.base_url ++ endpoint, jsonBody⟩]⟩)

/-- `search_shards(query, **options)`: `q` first, then the non-`None` options
in keyword order. -/
def CrystalShardsClient.search_shards (c : CrystalShardsClient) (t : Transport)
    (query : String) (options : List (String × Option PValue)) :
    CrystalShardsClient × Outcome Json :=
  let params := dictUpdMany [("q", PValue.str query)]
    (options.filterMap (fun p => p.2.map (fun v => (p.1, v))))
  c._request t "GET" ("/api/v1/search?" ++ urlencode params) none

/-- `get_shard(name)`: returns `none` when the raised message contains the
substring `"404"`, re-raises otherwise. -/
def CrystalShardsClient.get_shard (c : CrystalShardsClient) (t : Transport)
    (name : String) : CrystalShardsClient × Outcome (Option Json) :=
  match c._request t "GET" ("/api/v1/shards/" ++ name) none with
  | (c', o) =>
    match o.result with
    | .ok j => (c', ⟨.ok (some j), o.requests⟩)
    | .error e =>
      if pyIn "404" e then (c', ⟨.ok none, o.requests⟩)
      else (c', ⟨.error e, o.requests⟩)

/-- `submit_shard(github_url)`: raises locally when no truthy API key is
configured, otherwise POSTs the JSON payload. -/
def CrystalShardsClient.submit_shard (c : CrystalShardsClient) (t : Transport)
    (github_url : String) : CrystalShardsClient × Outcome Json :=
  if pyTruthyStr c.api_key then
    c._request t "POST" "/api/v1/shards" (some (Json.obj [("github_url", Json.str github_url)]))
  else
    (c, ⟨.error "API key required for shard submission", []⟩)

/-- `get_suggestions(query, limit=10)` (the Python default for `limit` is 10;
callers model leaving it unset by passing 10). -/
def CrystalShardsClient.get_suggestions (c : CrystalShardsClient) (t : Transport)
    (query : String) (limit : Int) : CrystalShardsClient × Outcome Json :=
  c._request t "GET"
    ("/api/v1/search/suggestions?" ++ urlencode [("q", .str query), ("limit", .int limit)]) none

/-- `get_trending_searches(limit=20)`. -/
def CrystalShardsClient.get_trending_searches (c : CrystalShardsClient) (t : Transport)
    (limit : Int) : CrystalShardsClient × Outcome Json :=
  c._request t "GET" ("/api/v1/search/trending?" ++ urlencode [("limit", .int limit)]) none

/-- `get_popular_searches(limit=20)`. -/
def CrystalShardsClient.get_popular_searches (c : CrystalShardsClient) (t : Transport)
    (limit : Int) : CrystalShardsClient × Outcome Json :=
  c._request t "GET" ("/api/v1/search/popular?" ++ urlencode [("limit", .int limit)]) none

/-- `get_search_analytics(days=7)`. -/
def CrystalShardsClient.get_search_analytics (c : CrystalShardsClient) (t : Transport)
    (days : Int) : CrystalShardsClient × Outcome Json :=
  c._request t "GET" ("/api/v1/search/analytics?" ++ urlencode [("days", .int days)]) none

/-- `get_search_filters()`. -/
def CrystalShardsClient.get_search_filters (c : CrystalShardsClient) (t : Transport) :
    CrystalShardsClient × Outcome Json :=
  c._request t "GET" "/api/v1/search/filters" none

/-- `list_shards(page=1, per_page=20)`. -/
def CrystalShardsClient.list_shards (c : CrystalShardsClient) (t : Transport)
    (page per_page : Int) : CrystalShardsClient × Outcome Json :=
  c._request t "GET" ("/api/v1/shards?" ++ urlencode [("page", .int page), ("per_page", .int per_page)]) none

/-- `get_api_info()`. -/
def CrystalShardsClient.get_api_info (c : CrystalShardsClient) (t : Transport) :
    CrystalShardsClient × Outcome Json :=
  c._request t "GET" "/api/v1" none

/-- `health_check()`. -/
def CrystalShardsClient.health_check (c : CrystalShardsClient) (t : Transport) :
    CrystalShardsClient × Outcome Json :=
  c._request t "GET" "/health" none

/-- A transport with no listener: every request raises a
`RequestException`. -/
def tDead : Transport := fun _ => .exn "Connection refused"

/-- A service that answers 404 with a JSON-object error body. -/
def t404shard : Transport :=
  fun _ => .resp ⟨404, "Not Found", "\x7b\"error\": \"Shard not found\"\x7d"⟩

/-- A service that answers 500 with a server-supplied error message that
happens to contain the digits `404`. -/
def t500with404 : Transport :=
  fun _ => .resp ⟨500, "Internal Server Error", "\x7b\"error\": \"shard 404 missing\"\x7d"⟩

/-- A service that answers 503 with an upstream error message that happens to
contain the digits `404`. -/
def t503with404 : Transport :=
  fun _ => .resp ⟨503, "Service Unavailable", "\x7b\"error\": \"upstream 404 cascade\"\x7d"⟩

/-- A service that answers 400 with a valid JSON body that is a list, not an
object. -/
def t400arr : Transport := fun _ => .resp ⟨400, "Bad Request", "[]"⟩

/-- A service that answers 401 with the spec scenario body
`\x7b"error": "invalid token"\x7d`. -/
def t401 : Transport :=
  fun _ => .resp ⟨401, "Unauthorized", "\x7b\"error\": \"invalid token\"\x7d"⟩

/-- The spec's health-check fixture
`\x7b"status": "ok", "timestamp": "2024-01-01T00:00:00Z"\x7d`. -/
def healthFixture : Json :=
  Json.obj [("status", Json.str "ok"), ("timestamp", Json.str "2024-01-01T00:00:00Z")]

/-- A service that answers 200 with the encoded health fixture. -/
def t200health : Transport := fun _ => .resp ⟨200, "OK", healthFixture.encode⟩

/-- A client-supplied get_suggestions call at the Python default
`limit=10` (the value used when the caller leaves `limit` unset). -/
def suggestionsDefaultLimit : Int := 10

lemma isPrefixOf_append_self (l1 l2 : List Char) : l1.isPrefixOf (l1 ++ l2) = true := by
  induction l1 with
  | nil => cases l2 <;> rfl
  | cons a t ih => simp [List.isPrefixOf, ih]

/-- A substring test succeeds whenever the needle occurs literally. -/
lemma pyIn_of_data (n hay : String) (pre post : List Char)
    (h : hay.data = pre ++ (n.data ++ post)) : pyIn n hay = true := by
  unfold pyIn
  rw [List.any_eq_true]
  refine ⟨pre.length, ?_, ?_⟩
  · rw [List.mem_range, h]
    simp [List.length_append]
    omega
  · rw [h, List.drop_left]
    exact isPrefixOf_append_self _ _

/-- The status code printed into an `API Error` message is always found by a
substring test for its own digits. -/
lemma pyIn_status_msg (s : Nat) (m : String) :
    pyIn (toString s) ("API Error " ++ toString s ++ ": " ++ m) = true :=
  pyIn_of_data _ _ "API Error ".data (": ".data ++ m.data)
    (by simp [String.data_append, List.append_assoc])

lemma stringDataEq (a b : String) (h : a.data = b.data) : a = b := by
  cases a
  cases b
  cases h
  rfl

/-- `_request` never writes to `self`: the client state after the call is the
state before it, in every branch. -/
lemma request_fst (c : CrystalShardsClient) (t : Transport) (m e : String) (jb : Option Json) :
    (c._request t m e jb).1 = c := by
  unfold CrystalShardsClient._request
  cases ht : t ⟨m, c.base_url ++ e, jb⟩ with
  | exn msg => rfl
  | resp r =>
    dsimp only
    split
    · split <;> rfl
    · split <;> rfl

/-- `get_shard` never writes to `self`. -/
lemma get_shard_fst (c : CrystalShardsClient) (t : Transport) (name : String) :
    (c.get_shard t name).1 = c := by
  unfold CrystalShardsClient.get_shard
  have h := request_fst c t "GET" ("/api/v1/shards/" ++ name) none
  rcases hr : c._request t "GET" ("/api/v1/shards/" ++ name) none with ⟨c', o⟩
  rw [hr] at h
  dsimp only
  split
  · exact h
  · split <;> exact h

/-- `submit_shard` never writes to `self`. -/
lemma submit_shard_fst (c : CrystalShardsClient) (t : Transport) (u : String) :
    (c.submit_shard t u).1 = c := by
  unfold CrystalShardsClient.submit_shard
  split
  · exact request_fst c t "POST" "/api/v1/shards" _
  · rfl

/-- `__init__` stores exactly the two default headers, plus `Authorization`
when and only when the key is truthy. -/
lemma init_headers (b : String) (k : Option String) :
    (CrystalShardsClient.init b k).headers =
      (if pyTruthyStr k then
        [("Content-Type", "application/json"),
         ("User-Agent", "CrystalShardsClient/1.0.0 (Python)"),
         ("Authorization", "Bearer " ++ k.getD "")]
       else
        [("Content-Type", "application/json"),
         ("User-Agent", "CrystalShardsClient/1.0.0 (Python)")]) := by
  cases h : pyTruthyStr k <;> simp [CrystalShardsClient.init, h] <;> rfl

/-- Whatever the transport answers, `_request` issues exactly the one request
`method base_url+endpoint`. -/
lemma request_requests (c : CrystalShardsClient) (t : Transport) (m e : String) (jb : Option Json) :
    (c._request t m e jb).2.requests = [⟨m, c.base_url ++ e, jb⟩] := by
  unfold CrystalShardsClient._request
  cases ht : t ⟨m, c.base_url ++ e, jb⟩ with
  | exn msg => rfl
  | resp r =>
    dsimp only
    split
    · split <;> rfl
    · split <;> rfl

/-- When the inner `_request` raises, `get_shard` returns `None` exactly when
the digits `404` occur in the message, and re-raises otherwise. -/
lemma get_shard_of_request_error (c : CrystalShardsClient) (t : Transport) (name msg : String)
    (hreq : (c._request t "GET" ("/api/v1/shards/" ++ name) none).2.result = Except.error msg) :
    (c.get_shard t name).2.result
      = (if pyIn "404" msg then Except.ok none else Except.error msg) := by
  unfold CrystalShardsClient.get_shard
  rcases hr : c._request t "GET" ("/api/v1/shards/" ++ name) none with ⟨c', o⟩
  rw [hr] at hreq
  dsimp only at hreq ⊢
  rw [hreq]
  dsimp only
  split <;> rfl

/-- C1: invoking `submit_shard` on a client constructed without an API key
fails with the local authentication-required error, and no network request is
issued, whatever the transport would answer. -/
theorem submit_shard_without_key_fails_locally (b : String) (t : Transport) (u : String) :
    ((CrystalShardsClient.init b none).submit_shard t u).2.result
        = Except.error "API key required for shard submission"
    ∧ ((CrystalShardsClient.init b none).submit_shard t u).2.requests = [] :=
  ⟨rfl, rfl⟩

/-- C2 (counterexample): a non-404 status (503) whose server-supplied error
message contains the digits `404` makes `get_shard` return an absent result
instead of an ApiError, so "any other non-success status yields an ApiError
with the matching status code" is false as stated. -/
theorem get_shard_non404_counterexample :
    (503 : Nat) ≠ 404
    ∧ ((CrystalShardsClient.init defaultBaseUrl none).get_shard t503with404 "foo").2.result
        = Except.ok none :=
  ⟨by decide, rfl⟩

/-- C2 (amended): for a `get_shard` response with a failure status in
400..599 whose body is invalid JSON or a JSON object, the underlying request
fails with a message carrying that status; a 404 status always yields the
absent result; any other status propagates that ApiError unless its resolved
message happens to contain the substring `404`, in which case the absent
result is returned instead. -/
theorem get_shard_status_handling
    (b : String) (k : Option String) (t : Transport) (name : String) (r : HttpResponse)
    (ht : t ⟨"GET", (CrystalShardsClient.init b k).base_url ++ ("/api/v1/shards/" ++ name), none⟩
            = TransportResult.resp r)
    (hlo : 400 ≤ r.status) (hhi : r.status < 600)
    (hbody : Json.decode r.body = none ∨ ∃ fs, Json.decode r.body = some (Json.obj fs)) :
    ∃ msg,
      ((CrystalShardsClient.init b k)._request t "GET" ("/api/v1/shards/" ++ name) none).2.result
          = Except.error ("API Error " ++ toString r.status ++ ": " ++ msg)
      ∧ ((CrystalShardsClient.init b k).get_shard t name).2.result
          = (if pyIn "404" ("API Error " ++ toString r.status ++ ": " ++ msg) then Except.ok none
             else Except.error ("API Error " ++ toString r.status ++ ": " ++ msg))
      ∧ (r.status = 404 →
          ((CrystalShardsClient.init b k).get_shard t name).2.result = Except.ok none) := by
  have hreq : ∃ msg,
      ((CrystalShardsClient.init b k)._request t "GET" ("/api/v1/shards/" ++ name) none).2.result
        = Except.error ("API Error " ++ toString r.status ++ ": " ++ msg) := by
    unfold CrystalShardsClient._request
    rw [ht]
    dsimp only
    rw [if_pos ⟨hlo, hhi⟩]
    rcases hbody with hd | ⟨fs, hd⟩
    · exact ⟨_, by rw [hd]⟩
    · exact ⟨_, by rw [hd]⟩
  obtain ⟨msg, hmsg⟩ := hreq
  refine ⟨msg, hmsg, get_shard_of_request_error _ t name _ hmsg, ?_⟩
  intro h404
  rw [get_shard_of_request_error _ t name _ hmsg]
  have hp := pyIn_status_msg r.status msg
  rw [h404] at hp ⊢
  rw [show toString (404 : Nat) = "404" from rfl] at hp ⊢
  rw [if_pos hp]

/-- C2 (witness): the spec's own scenario — a 404 with body
`\x7b"error": "Shard not found"\x7d` makes `get_shard("missing")` return the
absent result. -/
theorem get_shard_status_handling_witness :
    ∃ msg, ((CrystalShardsClient.init defaultBaseUrl none)._request t404shard "GET"
              ("/api/v1/shards/" ++ "missing") none).2.result
              = Except.error ("API Error " ++ toString ((404 : Nat)) ++ ": " ++ msg)
      ∧ ((CrystalShardsClient.init defaultBaseUrl none).get_shard t404shard "missing").2.result
          = (if pyIn "404" ("API Error " ++ toString ((404 : Nat)) ++ ": " ++ msg)
             then Except.ok none
             else Except.error ("API Error " ++ toString ((404 : Nat)) ++ ": " ++ msg))
      ∧ ((404 : Nat) = 404 →
          ((CrystalShardsClient.init defaultBaseUrl none).get_shard t404shard "missing").2.result
            = Except.ok none) :=
  get_shard_status_handling defaultBaseUrl none t404shard "missing"
    ⟨404, "Not Found", "\x7b\"error\": \"Shard not found\"\x7d"⟩ rfl (by decide) (by decide)
    (Or.inr ⟨[("error", Json.str "Shard not found")], rfl⟩)

/-- C3 (counterexample): `get_suggestions` with its `limit` parameter left
unset (Python default 10) produces a query string that still contains the
`limit` key, so "leaving an optional parameter unset omits that key entirely"
is false for every operation. -/
theorem unset_default_param_counterexample :
    ((CrystalShardsClient.init defaultBaseUrl none).get_suggestions tDead "kem"
        suggestionsDefaultLimit).2.requests
      = [⟨"GET", "https://api.crystalshards.org/api/v1/search/suggestions?q=kem&limit=10", none⟩]
    ∧ pyIn "limit=10" "https://api.crystalshards.org/api/v1/search/suggestions?q=kem&limit=10"
        = true :=
  ⟨rfl, by decide⟩

/-- Entries whose value is `None` contribute nothing to the
`if v is not None` comprehension: filtering them away first changes
nothing. -/
lemma filterMap_filter_isSome (opts : List (String × Option PValue)) :
    (opts.filter (fun p => p.2.isSome)).filterMap (fun p => p.2.map (fun v => (p.1, v)))
      = opts.filterMap (fun p => p.2.map (fun v => (p.1, v))) := by
  induction opts with
  | nil => rfl
  | cons p ps ih =>
    rcases p with ⟨key, v⟩
    cases v <;> simp [ih]

/-- C3 (amended): for `search_shards`, whose optional parameters are true
kwargs, each parameter left unset (or passed as `None`) is omitted — the call
with any mix of set and `None` options equals the call with the `None`
entries removed, and a query-only search issues exactly `q=<encoded value>`;
operations whose optional parameters carry non-None defaults
(`get_suggestions`, `get_trending_searches`, `get_popular_searches`,
`get_search_analytics`, `list_shards`) always include those keys with the
default value when left unset. -/
theorem search_omits_unset_optional_params
    (b : String) (k : Option String) (t : Transport) (q : String)
    (opts : List (String × Option PValue)) :
    (CrystalShardsClient.init b k).search_shards t q opts
        = (CrystalShardsClient.init b k).search_shards t q
            (opts.filter (fun p => p.2.isSome))
    ∧ ((CrystalShardsClient.init b k).search_shards t q []).2.requests
        = [⟨"GET", (CrystalShardsClient.init b k).base_url
              ++ ("/api/v1/search?" ++ ("q=" ++ quote_plus q)), none⟩]
    ∧ (∀ q2, ((CrystalShardsClient.init b k).get_suggestions t q2 10).2.requests
        = [⟨"GET", (CrystalShardsClient.init b k).base_url
              ++ ("/api/v1/search/suggestions?" ++ ("q=" ++ quote_plus q2 ++ "&" ++ "limit=10")),
            none⟩])
    ∧ ((CrystalShardsClient.init b k).get_trending_searches t 20).2.requests
        = [⟨"GET", (CrystalShardsClient.init b k).base_url
              ++ "/api/v1/search/trending?limit=20", none⟩]
    ∧ ((CrystalShardsClient.init b k).get_popular_searches t 20).2.requests
        = [⟨"GET", (CrystalShardsClient.init b k).base_url
              ++ "/api/v1/search/popular?limit=20", none⟩]
    ∧ ((CrystalShardsClient.init b k).get_search_analytics t 7).2.requests
        = [⟨"GET", (CrystalShardsClient.init b k).base_url
              ++ "/api/v1/search/analytics?days=7", none⟩]
    ∧ ((CrystalShardsClient.init b k).list_shards t 1 20).2.requests
        = [⟨"GET", (CrystalShardsClient.init b k).base_url
              ++ "/api/v1/shards?page=1&per_page=20", none⟩] := by
  refine ⟨?_, ?_, ?_, ?_, ?_, ?_, ?_⟩
  · unfold CrystalShardsClient.search_shards
    rw [filterMap_filter_isSome]
  · unfold CrystalShardsClient.search_shards
    rw [request_requests]
    rfl
  · intro q2
    unfold CrystalShardsClient.get_suggestions
    rw [request_requests]
    rfl
  · unfold CrystalShardsClient.get_trending_searches
    rw [request_requests]
    rfl
  · unfold CrystalShardsClient.get_popular_searches
    rw [request_requests]
    rfl
  · unfold CrystalShardsClient.get_search_analytics
    rw [request_requests]
    rfl
  · unfold CrystalShardsClient.list_shards
    rw [request_requests]
    rfl

/-- C4 (counterexample): a failure response whose body is valid JSON but not
an object (here the 400 response with body `[]`) makes `error_data.get` itself
raise an AttributeError, so the raised message is neither the body-derived nor
the status-derived ApiError message — a secondary failure does occur. -/
theorem error_body_nonobject_counterexample :
    ((CrystalShardsClient.init defaultBaseUrl none)._request t400arr "GET" "/x" none).2.result
        = Except.error "'list' object has no attribute 'get'"
    ∧ pyIn "API Error" "'list' object has no attribute 'get'" = false
    ∧ pyIn "400" "'list' object has no attribute 'get'" = false :=
  ⟨rfl, by decide, by decide⟩

/-- C4 (amended): on a failure status (400..599), the raised ApiError message
is the body's truthy `error` field if present, else its truthy `message`
field, else — or when the body is not decodable at all — the generic
status-derived description; but when the body decodes to a non-object JSON
value, the lookup itself fails and an AttributeError message is raised
instead. -/
theorem error_response_message_resolution
    (b : String) (k : Option String) (t : Transport) (m e : String) (jb : Option Json)
    (r : HttpResponse)
    (ht : t ⟨m, (CrystalShardsClient.init b k).base_url ++ e, jb⟩ = TransportResult.resp r)
    (hlo : 400 ≤ r.status) (hhi : r.status < 600) :
    (∀ fs v, Json.decode r.body = some (Json.obj fs) → truthyGet fs "error" = some v →
        ((CrystalShardsClient.init b k)._request t m e jb).2.result
          = Except.error ("API Error " ++ toString r.status ++ ": " ++ pyStr v))
    ∧ (∀ fs v, Json.decode r.body = some (Json.obj fs) → truthyGet fs "error" = none →
        truthyGet fs "message" = some v →
        ((CrystalShardsClient.init b k)._request t m e jb).2.result
          = Except.error ("API Error " ++ toString r.status ++ ": " ++ pyStr v))
    ∧ (∀ fs, Json.decode r.body = some (Json.obj fs) → truthyGet fs "error" = none →
        truthyGet fs "message" = none →
        ((CrystalShardsClient.init b k)._request t m e jb).2.result
          = Except.error ("API Error " ++ toString r.status ++ ": "
              ++ httpErrorStr r.status r.reason ((CrystalShardsClient.init b k).base_url ++ e)))
    ∧ (Json.decode r.body = none →
        ((CrystalShardsClient.init b k)._request t m e jb).2.result
          = Except.error ("API Error " ++ toString r.status ++ ": "
              ++ httpErrorStr r.status r.reason ((CrystalShardsClient.init b k).base_url ++ e)))
    ∧ (∀ j, Json.decode r.body = some j → (∀ fs, j ≠ Json.obj fs) →
        ((CrystalShardsClient.init b k)._request t m e jb).2.result
          = Except.error (attrErrorMsg j)) := by
  unfold CrystalShardsClient._request
  rw [ht]
  dsimp only
  rw [if_pos ⟨hlo, hhi⟩]
  refine ⟨?_, ?_, ?_, ?_, ?_⟩
  · intro fs v hd hv
    rw [hd]
    dsimp only
    simp only [resolveErrMsg, hv]
  · intro fs v hd he hm
    rw [hd]
    dsimp only
    simp only [resolveErrMsg, he, hm]
  · intro fs hd he hm
    rw [hd]
    dsimp only
    simp only [resolveErrMsg, he, hm]
  · intro hd
    rw [hd]
  · intro j hd hne
    rw [hd]
    cases j with
    | obj fs => exact absurd rfl (hne fs)
    | null => rfl
    | bool v => rfl
    | num n => rfl
    | str s => rfl
    | arr xs => rfl

/-- C4 (witness): the spec's 401 scenario — body
`\x7b"error": "invalid token"\x7d` yields the ApiError message
`API Error 401: invalid token`. -/
theorem error_response_message_resolution_witness :
    ((CrystalShardsClient.init defaultBaseUrl none)._request t401 "GET"
        "/api/v1/shards" none).2.result
      = Except.error ("API Error " ++ toString (401 : Nat) ++ ": "
          ++ pyStr (Json.str "invalid token")) :=
  (error_response_message_resolution defaultBaseUrl none t401 "GET" "/api/v1/shards" none
      ⟨401, "Unauthorized", "\x7b\"error\": \"invalid token\"\x7d"⟩ rfl (by decide) (by decide)).1
    [("error", Json.str "invalid token")] (Json.str "invalid token") rfl rfl

/-- C5: when the transport obtains no response at all, the operation fails
with the transport-failure message `Request failed: <reason>` — a message
carrying no HTTP status — after issuing the one attempted request. -/
theorem transport_failure_yields_request_failed
    (b : String) (k : Option String) (t : Transport) (m e : String) (jb : Option Json)
    (msg : String)
    (ht : t ⟨m, (CrystalShardsClient.init b k).base_url ++ e, jb⟩ = TransportResult.exn msg) :
    ((CrystalShardsClient.init b k)._request t m e jb).2.result
        = Except.error ("Request failed: " ++ msg)
    ∧ ((CrystalShardsClient.init b k)._request t m e jb).2.requests
        = [⟨m, (CrystalShardsClient.init b k).base_url ++ e, jb⟩] := by
  unfold CrystalShardsClient._request
  rw [ht]
  exact ⟨rfl, rfl⟩

/-- C5 (witness): the spec's no-listener scenario — a dead transport makes
the health check fail with `Request failed: Connection refused`. -/
theorem transport_failure_witness :
    ((CrystalShardsClient.init defaultBaseUrl none)._request tDead "GET" "/health" none).2.result
        = Except.error ("Request failed: " ++ "Connection refused")
    ∧ ((CrystalShardsClient.init defaultBaseUrl none)._request tDead "GET"
          "/health" none).2.requests
        = [⟨"GET", (CrystalShardsClient.init defaultBaseUrl none).base_url ++ "/health", none⟩] :=
  transport_failure_yields_request_failed defaultBaseUrl none tDead "GET" "/health" none
    "Connection refused" rfl

/-- C6: every successful (2xx) response with a valid JSON body is returned
decoded and unchanged; and decoding the encoded health-check fixture gives
back exactly that fixture (round-trip). -/
theorem success_returns_decoded_body :
    (∀ (b : String) (k : Option String) (t : Transport) (m e : String) (jb : Option Json)
        (r : HttpResponse) (j : Json),
        t ⟨m, (CrystalShardsClient.init b k).base_url ++ e, jb⟩ = TransportResult.resp r →
        200 ≤ r.status → r.status < 300 →
        Json.decode r.body = some j →
        ((CrystalShardsClient.init b k)._request t m e jb).2.result = Except.ok j)
    ∧ Json.decode healthFixture.encode = some healthFixture := by
  constructor
  · intro b k t m e jb r j ht h2 h3 hd
    unfold CrystalShardsClient._request
    rw [ht]
    dsimp only
    rw [if_neg (by omega)]
    rw [hd]
  · rfl

/-- C6 (witness): the spec's 200 health-check scenario returns exactly the
decoded fixture mapping. -/
theorem success_returns_decoded_body_witness :
    ((CrystalShardsClient.init defaultBaseUrl none)._request t200health "GET"
        "/health" none).2.result
      = Except.ok healthFixture :=
  success_returns_decoded_body.1 defaultBaseUrl none t200health "GET" "/health" none
    ⟨200, "OK", healthFixture.encode⟩ healthFixture rfl (by decide) (by decide) rfl

/-- C7 (counterexample): the default base URL the constructor installs is
`https://api.crystalshards.org`, not `https://api.example.org` as claimed. -/
theorem default_base_url_counterexample :
    (CrystalShardsClient.init defaultBaseUrl none).base_url = "https://api.crystalshards.org"
    ∧ "https://api.crystalshards.org" ≠ "https://api.example.org" :=
  ⟨rfl, by decide⟩

/-- C7 (amended): a client constructed with the default base URL uses
`https://api.crystalshards.org`, whatever the API key. -/
theorem default_base_url_is_crystalshards (k : Option String) :
    (CrystalShardsClient.init defaultBaseUrl k).base_url = "https://api.crystalshards.org" :=
  rfl

/-- C8: the configuration is fixed at construction — base URL with trailing
slashes stripped, the key as given, the two default headers plus
`Authorization: Bearer <key>` exactly when the key is truthy — and every
operation returns the client state unchanged. -/
theorem client_config_immutable
    (b : String) (k : Option String) (t : Transport) (q u nm m e : String)
    (opts : List (String × Option PValue)) (l d pg pp : Int) (jb : Option Json) :
    (CrystalShardsClient.init b k).base_url = rstripSlash b
    ∧ (CrystalShardsClient.init b k).api_key = k
    ∧ (CrystalShardsClient.init b k).headers =
        (if pyTruthyStr k then
          [("Content-Type", "application/json"),
           ("User-Agent", "CrystalShardsClient/1.0.0 (Python)"),
           ("Authorization", "Bearer " ++ k.getD "")]
         else
          [("Content-Type", "application/json"),
           ("User-Agent", "CrystalShardsClient/1.0.0 (Python)")])
    ∧ ((CrystalShardsClient.init b k)._request t m e jb).1 = CrystalShardsClient.init b k
    ∧ ((CrystalShardsClient.init b k).search_shards t q opts).1 = CrystalShardsClient.init b k
    ∧ ((CrystalShardsClient.init b k).get_shard t nm).1 = CrystalShardsClient.init b k
    ∧ ((CrystalShardsClient.init b k).submit_shard t u).1 = CrystalShardsClient.init b k
    ∧ ((CrystalShardsClient.init b k).get_suggestions t q l).1 = CrystalShardsClient.init b k
    ∧ ((CrystalShardsClient.init b k).get_trending_searches t l).1 = CrystalShardsClient.init b k
    ∧ ((CrystalShardsClient.init b k).get_popular_searches t l).1 = CrystalShardsClient.init b k
    ∧ ((CrystalShardsClient.init b k).get_search_analytics t d).1 = CrystalShardsClient.init b k
    ∧ ((CrystalShardsClient.init b k).get_search_filters t).1 = CrystalShardsClient.init b k
    ∧ ((CrystalShardsClient.init b k).list_shards t pg pp).1 = CrystalShardsClient.init b k
    ∧ ((CrystalShardsClient.init b k).get_api_info t).1 = CrystalShardsClient.init b k
    ∧ ((CrystalShardsClient.init b k).health_check t).1 = CrystalShardsClient.init b k :=
  ⟨rfl, rfl, init_headers b k,
   request_fst _ t m e jb,
   request_fst _ t "GET" _ none,
   get_shard_fst _ t nm,
   submit_shard_fst _ t u,
   request_fst _ t "GET" _ none,
   request_fst _ t "GET" _ none,
   request_fst _ t "GET" _ none,
   request_fst _ t "GET" _ none,
   request_fst _ t "GET" _ none,
   request_fst _ t "GET" _ none,
   request_fst _ t "GET" _ none,
   request_fst _ t "GET" _ none⟩

/-- C9: `get_shard` decides "not found" by a substring test for `404` on the
raised message, so a 500 response whose server-supplied message contains
`404` yields the absent result instead of propagating the error. -/
theorem get_shard_not_found_by_substring :
    (∀ (b : String) (k : Option String) (t : Transport) (name msg : String),
        ((CrystalShardsClient.init b k)._request t "GET"
            ("/api/v1/shards/" ++ name) none).2.result = Except.error msg →
        ((CrystalShardsClient.init b k).get_shard t name).2.result
            = (if pyIn "404" msg then Except.ok none else Except.error msg))
    ∧ ((CrystalShardsClient.init defaultBaseUrl none)._request t500with404 "GET"
          ("/api/v1/shards/" ++ "foo") none).2.result
        = Except.error "API Error 500: shard 404 missing"
    ∧ ((CrystalShardsClient.init defaultBaseUrl none).get_shard t500with404 "foo").2.result
        = Except.ok none
    ∧ (500 : Nat) ≠ 404 := by
  refine ⟨?_, rfl, rfl, by decide⟩
  intro b k t name msg hreq
  exact get_shard_of_request_error _ t name msg hreq

/-- C9 (witness): at the 500-with-`404`-in-message fixture, the substring
rule applies concretely. -/
theorem get_shard_not_found_by_substring_witness :
    ((CrystalShardsClient.init defaultBaseUrl none).get_shard t500with404 "foo").2.result
        = (if pyIn "404" "API Error 500: shard 404 missing" then Except.ok none
           else Except.error "API Error 500: shard 404 missing") :=
  get_shard_not_found_by_substring.1 defaultBaseUrl none t500with404 "foo"
    "API Error 500: shard 404 missing" rfl

/-- C10: a client constructed with the empty string as API key is treated as
unauthenticated — the empty key is falsy, no `Authorization` header is
installed, and `submit_shard` raises the local authentication-required error
without any network request. -/
theorem empty_api_key_is_unauthenticated (b : String) (t : Transport) (u : String) :
    pyTruthyStr (some "") = false
    ∧ ((CrystalShardsClient.init b (some "")).headers.any
        (fun p => p.1 == "Authorization")) = false
    ∧ ((CrystalShardsClient.init b (some "")).submit_shard t u).2.result
        = Except.error "API key required for shard submission"
    ∧ ((CrystalShardsClient.init b (some "")).submit_shard t u).2.requests = [] :=
  ⟨rfl, rfl, rfl, rfl⟩
